import Mathlib

/-!
Verification development for the dkdc-md-cli repository: a shallow embedding
of its credential resolution (src/auth.rs), HTTP response normalization and
path encoding (src/client.rs), and command dispatch helpers (src/cli.rs),
with theorems settling the specification claims.
-/

namespace DkdcMd

/-- JSON values, as in serde_json's `Value`. Numbers are modelled as
integers (`Int`); objects as association lists keyed by `String`.
(The program never constructs or inspects floating-point numbers in the
code paths under verification.) -/
inductive Json where
  | null : Json
  | bool (b : Bool) : Json
  | num (n : Int) : Json
  | str (s : String) : Json
  | arr (elems : List Json) : Json
  | obj (fields : List (String × Json)) : Json

/-- Association-list lookup on the fields of a JSON object (first match),
as `serde_json`'s object map lookup. -/
def lookupField : List (String × Json) → String → Option Json
  | [], _ => none
  | (k, v) :: rest, key => if k = key then some v else lookupField rest key

/-- `serde_json::Value::get(key)`: `Some` only when the value is an object
containing the key. -/
def Json.get : Json → String → Option Json
  | .obj fields, key => lookupField fields key
  | _, _ => none

/-- `serde_json`'s `Index<&str>` on `Value`: indexing a non-object or a
missing key yields `Value::Null`. -/
def Json.index (v : Json) (key : String) : Json :=
  (v.get key).getD .null

/-- `Value::as_str`: `Some` exactly for JSON strings. -/
def Json.as_str : Json → Option String
  | .str s => some s
  | _ => none

/-- `Value::as_u64`: `Some` exactly for non-negative integers that fit in
64 bits. -/
def Json.as_u64 : Json → Option Nat
  | .num n => if 0 ≤ n ∧ n < 2 ^ 64 then some n.toNat else none
  | _ => none

/-- `Value::as_array`. -/
def Json.as_array : Json → Option (List Json)
  | .arr elems => some elems
  | _ => none

/-! ## Credential resolution (src/auth.rs) -/

/-- Rust's `char::is_whitespace`: the Unicode `White_Space` property. -/
def isRustWhitespace (c : Char) : Bool :=
  let n := c.toNat
  (0x09 ≤ n && n ≤ 0x0D) || n == 0x20 || n == 0x85 || n == 0xA0 || n == 0x1680 ||
    (0x2000 ≤ n && n ≤ 0x200A) || n == 0x2028 || n == 0x2029 || n == 0x202F ||
    n == 0x205F || n == 0x3000

/-- Drop whitespace from both ends of a character list. -/
def trimChars (cs : List Char) : List Char :=
  ((cs.dropWhile isRustWhitespace).reverse.dropWhile isRustWhitespace).reverse

/-- Rust's `str::trim`: remove leading and trailing Unicode whitespace. -/
def rustTrim (s : String) : String :=
  String.mk (trimChars s.data)

/-- The ordered environment-variable names scanned for a credential
(`ENV_VARS` in src/auth.rs), highest priority first. -/
def ENV_VARS : List String :=
  ["motherduck_token", "MOTHERDUCK_TOKEN", "motherduck_api_key", "MOTHERDUCK_API_KEY"]

/-- One step of the env scan: the loop body of `resolve_token_with` takes a
variable's value when the lookup succeeds and the value is non-empty. -/
def envHit (env : String → Option String) (var : String) : Option String :=
  match env var with
  | some val => if val.isEmpty then none else some val
  | none => none

/-- `resolve_token_with` (src/auth.rs): scan `ENV_VARS` in order and return
the first present, non-empty value; otherwise fail naming all sources. The
process environment is passed as a lookup function (`std::env::var` is
injected in the source too). -/
def resolve_token_with (env : String → Option String) : Except String String :=
  match ENV_VARS.findSome? (envHit env) with
  | some val => .ok val
  | none => .error ("No MotherDuck token found. Set one of: " ++ String.intercalate ", " ENV_VARS)

/-- `read_token_from_reader` (src/auth.rs): trim the whole stream content
and fail if nothing remains. The reader is modelled by the string it
yields. -/
def read_token_from_reader (input : String) : Except String String :=
  let trimmed := rustTrim input
  if trimmed.isEmpty then .error "stdin was empty; expected a token"
  else .ok trimmed

/-- `resolve_token_or_with` (src/auth.rs): a supplied CLI value is used
(trimmed; `"-"` reads stdin; empty after trim is an error) and only an
absent CLI value falls back to the environment scan. -/
def resolve_token_or_with (cli_token : Option String) (env : String → Option String)
    (stdin : String) : Except String String :=
  match cli_token with
  | some token =>
    if token = "-" then read_token_from_reader stdin
    else
      let trimmed := rustTrim token
      if trimmed.isEmpty then .error "--token value must not be empty"
      else .ok trimmed
  | none => resolve_token_with env

/-! ## Path-segment encoding (src/client.rs) -/

/-- UTF-8 encoding of a character, as a list of byte values. -/
def utf8Bytes (c : Char) : List Nat :=
  let n := c.toNat
  if n < 0x80 then [n]
  else if n < 0x800 then
    [0xC0 + n / 0x40, 0x80 + n % 0x40]
  else if n < 0x10000 then
    [0xE0 + n / 0x1000, 0x80 + n / 0x40 % 0x40, 0x80 + n % 0x40]
  else
    [0xF0 + n / 0x40000, 0x80 + n / 0x1000 % 0x40, 0x80 + n / 0x40 % 0x40, 0x80 + n % 0x40]

/-- The `PATH_SEGMENT` ascii set (src/client.rs): the crate's `CONTROLS`
(C0 controls and DEL) plus space, `#`, `%`, `/`, `?`. -/
def pathSegmentContains (b : Nat) : Bool :=
  b < 0x20 || b == 0x7F || b == 0x20 || b == 0x23 || b == 0x25 || b == 0x2F || b == 0x3F

/-- The `percent-encoding` crate encodes a byte when it is non-ASCII or a
member of the given ascii set. -/
def shouldEncode (b : Nat) : Bool :=
  0x80 ≤ b || pathSegmentContains b

/-- Uppercase hexadecimal digit. -/
def hexDigitChar (n : Nat) : Char :=
  if n < 10 then Char.ofNat (48 + n) else Char.ofNat (55 + n)

/-- The characters emitted for one input byte: `%XX` (uppercase hex) when
the byte must be encoded, otherwise the byte itself. -/
def encodeByteChars (b : Nat) : List Char :=
  if shouldEncode b then ['%', hexDigitChar (b / 16), hexDigitChar (b % 16)]
  else [Char.ofNat b]

/-- `encode_path` (src/client.rs): `utf8_percent_encode(s, PATH_SEGMENT)`,
applied byte-by-byte to the UTF-8 encoding of the string. -/
def encode_path (s : String) : String :=
  String.mk ((s.data.flatMap utf8Bytes).flatMap encodeByteChars)

/-! ## Response normalization (src/client.rs) -/

/-- The error text produced by `bail!("API error ({status}): {message}")`. -/
def apiError (status : Nat) (message : String) : String :=
  "API error (" ++ toString status ++ "): " ++ message

/-- `parse_response` (src/client.rs). `serde_json::from_str::<Value>` is an
external library call and is passed in as the decoder `from_str`
(`none` = the body text does not decode as JSON). -/
def parse_response (from_str : String → Option Json) (status : Nat) (text : String) :
    Except String Json :=
  match from_str text with
  | some body =>
    if 200 ≤ status ∧ status < 300 then .ok body
    else
      let message := ((body.get "message").bind Json.as_str).getD text
      .error (apiError status message)
  | none =>
    if 200 ≤ status ∧ status < 300 then .ok (.str text)
    else .error (apiError status text)

/-! ## Request bodies (src/client.rs) -/

/-- The PUT body built by `set_duckling_config` (src/client.rs): the merged
configuration wrapped under a top-level `config` key. -/
def set_duckling_body (rw_size rs_size : String) (rs_flock_size : Nat) : Json :=
  .obj [("config", .obj [
    ("read_write", .obj [("instance_size", .str rw_size)]),
    ("read_scaling", .obj [("instance_size", .str rs_size), ("flock_size", .num rs_flock_size)])])]

/-- The network calls a command handler can issue, identified by method,
path parameters and body. -/
inductive ApiCall where
  | getDucklingConfig (username : String) : ApiCall
  | putDucklingConfig (username : String) (body : Json) : ApiCall
  | deleteUser (username : String) : ApiCall
  | deleteToken (username : String) (tokenId : String) : ApiCall

/-! ## Output helpers (src/cli.rs) -/

/-- `InstanceSize` (src/cli.rs). -/
inductive InstanceSize where
  | pulse : InstanceSize
  | standard : InstanceSize
  | jumbo : InstanceSize
  | mega : InstanceSize
  | giga : InstanceSize
deriving DecidableEq

/-- `InstanceSize::as_api_str` (src/cli.rs). -/
def InstanceSize.as_api_str : InstanceSize → String
  | .pulse => "pulse"
  | .standard => "standard"
  | .jumbo => "jumbo"
  | .mega => "mega"
  | .giga => "giga"

/-- `display_field` (src/cli.rs): `value[key].as_str().unwrap_or("-")`. -/
def display_field (value : Json) (key : String) : String :=
  ((value.index key).as_str).getD "-"

/-- `extract_str` (src/cli.rs): `value[key].as_str()`. -/
def extract_str (value : Json) (key : String) : Option String :=
  (value.index key).as_str

/-- The expiry cell of a token-list row (src/cli.rs, `TokenCommands::List`):
`match t["expire_at"].as_str() { Some(s) if !s.is_empty() => s, _ => "never" }`. -/
def token_expiry (t : Json) : String :=
  match (t.index "expire_at").as_str with
  | some s => if s.isEmpty then "never" else s
  | none => "never"

/-- One row of the token-list table (src/cli.rs, `TokenCommands::List`). -/
def token_row (t : Json) : List String :=
  [display_field t "id", display_field t "name", display_field t "token_type", token_expiry t]

/-! ## Table rendering (src/cli.rs) -/

/-- The width a row contributes to column `i`:
`r.get(i).map_or(0, |s| s.len())`. -/
def cellWidth (r : List String) (i : Nat) : Nat :=
  ((r.get? i).map String.length).getD 0

/-- The column widths of `print_table` (src/cli.rs): for each header index,
the max of the header's width and every row's width in that column. -/
def tableWidths (headers : List String) (rows : List (List String)) : List Nat :=
  (List.range headers.length).map fun i =>
    max (cellWidth headers i) ((rows.map fun r => cellWidth r i).foldr max 0)

/-- Left-align a string in a field of the given width (Rust's
`{:<width$}`): pad on the right with spaces, never truncate. -/
def padTo (s : String) (w : Nat) : String :=
  s ++ String.mk (List.replicate (w - s.length) ' ')

/-- One printed cell: non-final columns are padded and followed by exactly
two spaces (`print!("{:<width$}  ", ..)`); a cell at or past the final
column index is printed bare and ends the line (`println!`). -/
def renderCell (widths : List Nat) (last : Nat) (i : Nat) (val : String) : String :=
  if i < last then padTo val ((widths.get? i).getD 0) ++ "  "
  else val ++ "\n"

/-- The output printed for one row (or for the header row). -/
def renderRow (widths : List Nat) (last : Nat) (cells : List String) : String :=
  String.join (cells.enum.map fun p => renderCell widths last p.1 p.2)

/-- `print_table` (src/cli.rs), as the full text written to stdout: nothing
when `rows` is empty, otherwise the header row followed by the data rows,
using the computed column widths. -/
def print_table (headers : List String) (rows : List (List String)) : String :=
  if rows.isEmpty then ""
  else
    let widths := tableWidths headers rows
    let last := headers.length - 1
    renderRow widths last headers ++ String.join (rows.map (renderRow widths last))

/-! ## Confirmation gate and destructive commands (src/cli.rs) -/

/-- Rust's `str::to_lowercase`, character by character (the answers the
gate compares against are ASCII, where per-character lowercasing agrees
with Rust's Unicode lowercasing). -/
def lowercase (s : String) : String :=
  String.mk (s.data.map Char.toLower)

/-- `confirm` (src/cli.rs). Ambient effects are injected: whether stdin is
a terminal, and the line a prompted user would type. Auto-confirms when
`--yes` was passed or stdin is not a terminal; otherwise accepts exactly a
trimmed, lowercased answer of `y` or `yes`. -/
def confirm (yes : Bool) (stdinIsTerminal : Bool) (inputLine : String) : Except String Unit :=
  if yes || !stdinIsTerminal then .ok ()
  else if lowercase (rustTrim inputLine) = "y" || lowercase (rustTrim inputLine) = "yes" then
    .ok ()
  else .error "aborted"

/-- `ServiceAccountCommands::Delete` (src/cli.rs): the confirmation gate
runs first; only if it passes is the DELETE call issued. Returns the calls
issued and the outcome. -/
def handle_delete_user (username : String) (yes : Bool) (stdinIsTerminal : Bool)
    (inputLine : String) : List ApiCall × Except String Unit :=
  match confirm yes stdinIsTerminal inputLine with
  | .error e => ([], .error e)
  | .ok _ => ([ApiCall.deleteUser username], .ok ())

/-- `TokenCommands::Delete` (src/cli.rs): same gate, then the token DELETE
call. -/
def handle_delete_token (username tokenId : String) (yes : Bool) (stdinIsTerminal : Bool)
    (inputLine : String) : List ApiCall × Except String Unit :=
  match confirm yes stdinIsTerminal inputLine with
  | .error e => ([], .error e)
  | .ok _ => ([ApiCall.deleteToken username tokenId], .ok ())

/-! ## Duckling-config merge (src/cli.rs) -/

/-- The read-write size used for the write (src/cli.rs, `let rw = ...`):
the override if given, else `current["read_write"]["instance_size"]` as a
string, else the error naming the field. -/
def resolve_rw (current : Json) : Option InstanceSize → Except String String
  | some s => .ok s.as_api_str
  | none =>
    match extract_str (current.index "read_write") "instance_size" with
    | some v => .ok v
    | none => .error "current config missing read_write.instance_size"

/-- The read-scaling size used for the write (src/cli.rs, `let rs = ...`). -/
def resolve_rs (current : Json) : Option InstanceSize → Except String String
  | some s => .ok s.as_api_str
  | none =>
    match extract_str (current.index "read_scaling") "instance_size" with
    | some v => .ok v
    | none => .error "current config missing read_scaling.instance_size"

/-- The flock size used for the write (src/cli.rs, `let flock = ...`):
the override if given, else `current["read_scaling"]["flock_size"]` as a
`u64` narrowed to `u32`, else the error naming the field. -/
def resolve_flock (current : Json) : Option Nat → Except String Nat
  | some n => .ok n
  | none =>
    match ((current.index "read_scaling").index "flock_size").as_u64 with
    | some v =>
      if v < 2 ^ 32 then .ok v
      else .error "current config missing read_scaling.flock_size"
    | none => .error "current config missing read_scaling.flock_size"

/-- The field-by-field merge inside `handle_duckling` for
`DucklingCommands::Set` (src/cli.rs): each of the three fields is the
caller's override when given, else read from the fetched current config,
failing with a message naming the field when neither is available (the
fields are resolved in source order, so the first missing field names the
error). -/
def merge_duckling (current : Json) (rw_size rs_size : Option InstanceSize)
    (flock_size : Option Nat) : Except String (String × String × Nat) := do
  let rw ← resolve_rw current rw_size
  let rs ← resolve_rs current rs_size
  let flock ← resolve_flock current flock_size
  pure (rw, rs, flock)

/-- `DucklingCommands::Set` in `handle_duckling` (src/cli.rs), after
argument parsing: fetch the current config (its outcome injected as
`fetch`), merge the overrides over it, and only on success issue the PUT
with the body built by `set_duckling_config`. Returns the calls issued and
the outcome. -/
def handle_duckling_set (username : String) (rw_size rs_size : Option InstanceSize)
    (flock_size : Option Nat) (fetch : Except String Json) :
    List ApiCall × Except String Unit :=
  match fetch with
  | .error e => ([ApiCall.getDucklingConfig username], .error e)
  | .ok current =>
    match merge_duckling current rw_size rs_size flock_size with
    | .error e => ([ApiCall.getDucklingConfig username], .error e)
    | .ok (rw, rs, flock) =>
      ([ApiCall.getDucklingConfig username,
        ApiCall.putDucklingConfig username (set_duckling_body rw rs flock)], .ok ())

/-- The clap `ArgGroup("overrides")` declared on `DucklingCommands::Set`
(src/cli.rs) is `required`: parsing succeeds only when at least one of the
three override flags is present. -/
def overridesGroupSatisfied (rw_size rs_size : Option InstanceSize)
    (flock_size : Option Nat) : Bool :=
  rw_size.isSome || rs_size.isSome || flock_size.isSome

/-- The full duckling-set pipeline: argument parsing rejects a command with
no override before any handler code (hence before any network call) runs;
an accepted command runs `handle_duckling_set`. -/
def duckling_set_run (username : String) (rw_size rs_size : Option InstanceSize)
    (flock_size : Option Nat) (fetch : Except String Json) :
    List ApiCall × Except String Unit :=
  if overridesGroupSatisfied rw_size rs_size flock_size then
    handle_duckling_set username rw_size rs_size flock_size fetch
  else ([], .error "at least one override is required")

/-! ## Helper lemmas -/

/-- A string whose first and last characters (when any) are not
whitespace, i.e. with no leading or trailing whitespace. -/
def no_edge_whitespace (s : String) : Bool :=
  (match s.data.head? with
   | some c => !isRustWhitespace c
   | none => true) &&
  (match s.data.getLast? with
   | some c => !isRustWhitespace c
   | none => true)

theorem trimChars_eq_rdropWhile (cs : List Char) :
    trimChars cs = List.rdropWhile isRustWhitespace (cs.dropWhile isRustWhitespace) := rfl

theorem no_edge_whitespace_trimChars (cs : List Char) :
    no_edge_whitespace (String.mk (trimChars cs)) = true := by
  rw [no_edge_whitespace, trimChars_eq_rdropWhile]
  set d := cs.dropWhile isRustWhitespace with hd
  set r := List.rdropWhile isRustWhitespace d with hr
  rcases eq_or_ne r [] with h | h
  · simp [h]
  have hpre : r <+: d := List.rdropWhile_prefix _ _
  have hdne : d ≠ [] := by
    intro hnil
    exact h (List.prefix_nil.mp (hnil ▸ hpre))
  have hhead : r.head h = d.head hdne := List.IsPrefix.head hpre h
  have h1 : isRustWhitespace (r.head h) = false := by
    rw [hhead]
    exact List.head_dropWhile_not isRustWhitespace cs hdne
  have h2 : ¬ isRustWhitespace (r.getLast h) = true :=
    List.rdropWhile_last_not (p := isRustWhitespace) (l := d) h
  have h2' : isRustWhitespace (r.getLast h) = false := by simpa using h2
  rw [List.head?_eq_head h, List.getLast?_eq_getLast _ h]
  simp [h1, h2']

theorem rustTrim_no_edge_whitespace (s : String) :
    no_edge_whitespace (rustTrim s) = true :=
  no_edge_whitespace_trimChars s.data

/-- The environment treats a variable that is unset or set to the empty
string identically; this predicate names both cases. -/
def envUnsetOrEmpty (env : String → Option String) (var : String) : Prop :=
  env var = none ∨ env var = some ""

theorem envHit_of_unsetOrEmpty {env : String → Option String} {var : String}
    (h : envUnsetOrEmpty env var) : envHit env var = none := by
  rcases h with h | h
  · simp [envHit, h]
  · simp only [envHit, h]
    rfl

theorem envHit_of_some {env : String → Option String} {var val : String}
    (h : env var = some val) (hv : val ≠ "") : envHit env var = some val := by
  simp only [envHit, h]
  rw [if_neg (by simpa [String.isEmpty_iff] using hv)]

theorem envHit_ne_empty {env : String → Option String} {var val : String}
    (h : envHit env var = some val) : val ≠ "" := by
  rcases he : env var with _ | v
  · simp [envHit, he] at h
  · simp only [envHit, he] at h
    by_cases hv : v.isEmpty
    · simp [hv] at h
    · rw [if_neg hv] at h
      cases h
      simpa [String.isEmpty_iff] using hv

theorem resolve_some_dash (env : String → Option String) (stdin : String) :
    resolve_token_or_with (some "-") env stdin = read_token_from_reader stdin := by
  simp [resolve_token_or_with]

theorem resolve_some_ne_dash {cli : String} (env : String → Option String) (stdin : String)
    (h : cli ≠ "-") :
    resolve_token_or_with (some cli) env stdin =
      if (rustTrim cli).isEmpty then .error "--token value must not be empty"
      else .ok (rustTrim cli) := by
  simp [resolve_token_or_with, h]

theorem read_token_eq (stdin : String) :
    read_token_from_reader stdin =
      if (rustTrim stdin).isEmpty then .error "stdin was empty; expected a token"
      else .ok (rustTrim stdin) := rfl

theorem resolve_token_with_ne_empty {env : String → Option String} {tok : String}
    (h : resolve_token_with env = .ok tok) : tok ≠ "" := by
  rw [resolve_token_with] at h
  rcases hf : ENV_VARS.findSome? (envHit env) with _ | v
  · rw [hf] at h
    exact absurd h (by simp)
  · rw [hf] at h
    cases h
    obtain ⟨a, _, ha⟩ := List.exists_of_findSome?_eq_some hf
    exact envHit_ne_empty ha

/-! ## Claims about credential resolution -/

/-- C3: a present CLI value that is non-empty after trim is chosen over
every environment source; a present CLI value never falls through to the
environment (the result does not depend on it), and one that trims to
empty is an error; with no CLI value, the highest-priority environment
variable set to a non-empty string wins, and an empty-string value behaves
exactly as if the variable were unset. -/
theorem c3_credential_precedence (cli : String) (env envAlt : String → Option String)
    (stdin val : String) :
    (cli ≠ "-" → rustTrim cli ≠ "" →
      resolve_token_or_with (some cli) env stdin = .ok (rustTrim cli)) ∧
    (resolve_token_or_with (some cli) env stdin =
      resolve_token_or_with (some cli) envAlt stdin) ∧
    (cli ≠ "-" → rustTrim cli = "" →
      resolve_token_or_with (some cli) env stdin = .error "--token value must not be empty") ∧
    (resolve_token_or_with none env stdin = resolve_token_with env) ∧
    (val ≠ "" →
      (env "motherduck_token" = some val → resolve_token_with env = .ok val) ∧
      (envUnsetOrEmpty env "motherduck_token" →
        env "MOTHERDUCK_TOKEN" = some val → resolve_token_with env = .ok val) ∧
      (envUnsetOrEmpty env "motherduck_token" → envUnsetOrEmpty env "MOTHERDUCK_TOKEN" →
        env "motherduck_api_key" = some val → resolve_token_with env = .ok val) ∧
      (envUnsetOrEmpty env "motherduck_token" → envUnsetOrEmpty env "MOTHERDUCK_TOKEN" →
        envUnsetOrEmpty env "motherduck_api_key" →
        env "MOTHERDUCK_API_KEY" = some val → resolve_token_with env = .ok val)) ∧
    (∀ var, resolve_token_with (fun k => if k = var then some "" else env k) =
        resolve_token_with (fun k => if k = var then none else env k)) := by
  refine ⟨?_, ?_, ?_, rfl, ?_, ?_⟩
  · intro hdash hne
    rw [resolve_some_ne_dash env stdin hdash,
      if_neg (by simpa [String.isEmpty_iff] using hne)]
  · by_cases hdash : cli = "-"
    · subst hdash
      rw [resolve_some_dash, resolve_some_dash]
    · rw [resolve_some_ne_dash env stdin hdash, resolve_some_ne_dash envAlt stdin hdash]
  · intro hdash heq
    rw [resolve_some_ne_dash env stdin hdash, if_pos (by simpa [String.isEmpty_iff] using heq)]
  · intro hval
    refine ⟨?_, ?_, ?_, ?_⟩
    · intro h1
      simp [resolve_token_with, ENV_VARS, List.findSome?_cons, envHit_of_some h1 hval]
    · intro h0 h1
      simp [resolve_token_with, ENV_VARS, List.findSome?_cons,
        envHit_of_unsetOrEmpty h0, envHit_of_some h1 hval]
    · intro h0 h1 h2
      simp [resolve_token_with, ENV_VARS, List.findSome?_cons,
        envHit_of_unsetOrEmpty h0, envHit_of_unsetOrEmpty h1, envHit_of_some h2 hval]
    · intro h0 h1 h2 h3
      simp [resolve_token_with, ENV_VARS, List.findSome?_cons,
        envHit_of_unsetOrEmpty h0, envHit_of_unsetOrEmpty h1, envHit_of_unsetOrEmpty h2,
        envHit_of_some h3 hval]
  · intro var
    have hfun : envHit (fun k => if k = var then some "" else env k) =
        envHit (fun k => if k = var then none else env k) := by
      funext k
      by_cases hk : k = var
      · subst hk
        simp [envHit, String.isEmpty]
      · simp [envHit, hk]
    rw [resolve_token_with, resolve_token_with, hfun]

/-- C3 witness: with `MOTHERDUCK_TOKEN` set in the environment, a CLI value
still wins; with only `MOTHERDUCK_TOKEN` set non-empty (the higher-priority
`motherduck_token` set to the empty string), its value is returned. -/
theorem c3_credential_precedence_witness :
    resolve_token_or_with (some "cli-tok")
      (fun k => if k = "MOTHERDUCK_TOKEN" then some "env-tok" else none) "" = .ok "cli-tok" ∧
    resolve_token_with
      (fun k => if k = "motherduck_token" then some ""
        else if k = "MOTHERDUCK_TOKEN" then some "env-tok" else none) = .ok "env-tok" := by
  constructor
  · have h := (c3_credential_precedence "cli-tok"
      (fun k => if k = "MOTHERDUCK_TOKEN" then some "env-tok" else none)
      (fun _ => none) "" "x").1 (by decide) (by decide)
    exact h
  · exact (c3_credential_precedence "" _ (fun _ => none) "" "env-tok").2.2.2.2.1
      (by decide) |>.2.1 (Or.inr (by decide)) (by decide)

/-- C4 (amended): a credential resolved from the CLI flag (directly or via
the `"-"` stdin sentinel) is non-empty and carries no leading or trailing
whitespace, `"  tok  \n"` resolving to `"tok"` and `"   "` failing with the
empty-value error; a credential resolved from an environment variable is
non-empty but is returned verbatim and may carry surrounding whitespace. -/
theorem c4_resolved_token_trimmed (cli : String) (env : String → Option String)
    (stdin tok : String) :
    (resolve_token_or_with (some cli) env stdin = .ok tok →
      tok ≠ "" ∧ no_edge_whitespace tok = true) ∧
    (resolve_token_or_with none env stdin = .ok tok → tok ≠ "") ∧
    resolve_token_or_with (some "  tok  \n") env stdin = .ok "tok" ∧
    resolve_token_or_with (some "   ") env stdin =
      .error "--token value must not be empty" := by
  refine ⟨?_, ?_, ?_, ?_⟩
  · intro h
    by_cases hdash : cli = "-"
    · subst hdash
      rw [resolve_some_dash, read_token_eq] at h
      by_cases he : (rustTrim stdin).isEmpty
      · rw [if_pos he] at h
        exact absurd h (by simp)
      · rw [if_neg he] at h
        cases h
        exact ⟨by simpa [String.isEmpty_iff] using he, rustTrim_no_edge_whitespace stdin⟩
    · rw [resolve_some_ne_dash env stdin hdash] at h
      by_cases he : (rustTrim cli).isEmpty
      · rw [if_pos he] at h
        exact absurd h (by simp)
      · rw [if_neg he] at h
        cases h
        exact ⟨by simpa [String.isEmpty_iff] using he, rustTrim_no_edge_whitespace cli⟩
  · intro h
    exact resolve_token_with_ne_empty h
  · rw [resolve_some_ne_dash env stdin (by decide)]
    rfl
  · rw [resolve_some_ne_dash env stdin (by decide)]
    rfl

/-- C4 witness: instantiating the invariant on a concrete CLI value. -/
theorem c4_resolved_token_trimmed_witness :
    "tok" ≠ "" ∧ no_edge_whitespace "tok" = true :=
  (c4_resolved_token_trimmed "  tok  \n" (fun _ => none) "" "tok").1
    ((c4_resolved_token_trimmed "  tok  \n" (fun _ => none) "" "tok").2.2.1)

/-- C4 counterexample: an environment credential is returned verbatim, so
a value with surrounding whitespace resolves with that whitespace kept —
the resolved credential is not whitespace-trimmed. -/
theorem c4_env_not_trimmed_counterexample :
    resolve_token_or_with none
      (fun k => if k = "motherduck_token" then some " tok " else none) "" = .ok " tok " ∧
    no_edge_whitespace " tok " = false ∧
    rustTrim " tok " ≠ " tok " := by
  refine ⟨rfl, rfl, by decide⟩

/-! ## Claims about response normalization -/

theorem parse_response_some {from_str : String → Option Json} {text : String} {body : Json}
    (status : Nat) (h : from_str text = some body) :
    parse_response from_str status text =
      if 200 ≤ status ∧ status < 300 then .ok body
      else .error (apiError status (((body.get "message").bind Json.as_str).getD text)) := by
  simp only [parse_response, h]

theorem parse_response_none {from_str : String → Option Json} {text : String}
    (status : Nat) (h : from_str text = none) :
    parse_response from_str status text =
      if 200 ≤ status ∧ status < 300 then .ok (.str text)
      else .error (apiError status text) := by
  simp only [parse_response, h]

/-- The response-body text `{"username":"svc_test"}`. -/
def bodyUser : String := "\x7b\"username\":\"svc_test\"\x7d"

/-- The response-body text `{"message":"user not found"}`. -/
def bodyNotFound : String := "\x7b\"message\":\"user not found\"\x7d"

/-- The response-body text `{"message": 5}` — a `message` field that is a
number, not a string. -/
def bodyNumMessage : String := "\x7b\"message\": 5\x7d"

/-- A concrete decoder agreeing with `serde_json::from_str::<Value>` on the
response bodies used by the specification's classification vectors: the
three JSON object bodies decode to the corresponding objects, anything
else (the plain-text bodies) does not decode. -/
def vecDecode : String → Option Json := fun t =>
  if t = bodyUser then some (.obj [("username", .str "svc_test")])
  else if t = bodyNotFound then some (.obj [("message", .str "user not found")])
  else if t = bodyNumMessage then some (.obj [("message", .num 5)])
  else none

/-- C1 (amended): a 2xx status with a decodable body yields the decoded
value; a 2xx status with a non-decodable body yields the raw text wrapped
as a JSON string (never an error); a non-2xx status fails with an error
carrying the status and a message, where the message is the JSON object's
`message` field when that field is present with a string value, and the
raw response text otherwise (field absent, body not an object, body not
JSON, or `message` present but not a string). The specification's four
classification vectors hold. -/
theorem c1_parse_response_classification (from_str : String → Option Json)
    (status : Nat) (text : String) (body : Json) :
    (from_str text = some body → 200 ≤ status → status < 300 →
      parse_response from_str status text = .ok body) ∧
    (from_str text = none → 200 ≤ status → status < 300 →
      parse_response from_str status text = .ok (.str text)) ∧
    (from_str text = some body → ¬(200 ≤ status ∧ status < 300) →
      (∀ m, body.get "message" = some (.str m) →
        parse_response from_str status text = .error (apiError status m)) ∧
      ((body.get "message").bind Json.as_str = none →
        parse_response from_str status text = .error (apiError status text))) ∧
    (from_str text = none → ¬(200 ≤ status ∧ status < 300) →
      parse_response from_str status text = .error (apiError status text)) ∧
    parse_response vecDecode 200 bodyUser = .ok (.obj [("username", .str "svc_test")]) ∧
    parse_response vecDecode 200 "plain text response" = .ok (.str "plain text response") ∧
    parse_response vecDecode 404 bodyNotFound = .error "API error (404): user not found" ∧
    parse_response vecDecode 500 "Internal Server Error" =
      .error "API error (500): Internal Server Error" := by
  refine ⟨?_, ?_, ?_, ?_, rfl, rfl, rfl, rfl⟩
  · intro h h1 h2
    rw [parse_response_some status h, if_pos ⟨h1, h2⟩]
  · intro h h1 h2
    rw [parse_response_none status h, if_pos ⟨h1, h2⟩]
  · intro h hs
    constructor
    · intro m hm
      rw [parse_response_some status h, if_neg hs, hm]
      rfl
    · intro hm
      rw [parse_response_some status h, if_neg hs, hm]
      rfl
  · intro h hs
    rw [parse_response_none status h, if_neg hs]

/-- C1 witness: the 404-with-string-message case instantiated concretely. -/
theorem c1_parse_response_classification_witness :
    parse_response vecDecode 404 bodyNotFound = .error (apiError 404 "user not found") :=
  ((c1_parse_response_classification vecDecode 404 bodyNotFound
      (.obj [("message", .str "user not found")])).2.2.1 rfl (by decide)).1
    "user not found" rfl

/-- C1 counterexample: at status 400 with body `{"message": 5}` the
`message` field is present, yet the produced error embeds the whole raw
body text — not the field's value (nor its rendering `5`) — contradicting
"the message is the JSON object's `message` field if present". -/
theorem c1_message_field_counterexample :
    (Json.obj [("message", Json.num 5)]).get "message" = some (Json.num 5) ∧
    parse_response vecDecode 400 bodyNumMessage = .error (apiError 400 bodyNumMessage) ∧
    parse_response vecDecode 400 bodyNumMessage ≠ .error (apiError 400 "5") := by
  refine ⟨rfl, rfl, ?_⟩
  have heq : parse_response vecDecode 400 bodyNumMessage =
      .error (apiError 400 bodyNumMessage) := rfl
  rw [heq]
  intro h
  injection h with h'
  exact absurd h' (by decide)

/-- C10: when a non-2xx response body decodes to a value whose `message`
field is present but is not a string (a number, object, array, bool or
null), the resulting error message contains the full raw response text,
not a rendering of that field. -/
theorem c10_non_string_message_uses_raw_text (from_str : String → Option Json)
    (status : Nat) (text : String) (body m : Json) :
    from_str text = some body → body.get "message" = some m → m.as_str = none →
    ¬(200 ≤ status ∧ status < 300) →
    parse_response from_str status text = .error (apiError status text) := by
  intro h hm hstr hs
  rw [parse_response_some status h, if_neg hs, hm]
  simp [hstr]

/-- C10 witness: status 400 with body `{"message": 5}`. -/
theorem c10_non_string_message_uses_raw_text_witness :
    parse_response vecDecode 400 bodyNumMessage = .error (apiError 400 bodyNumMessage) :=
  c10_non_string_message_uses_raw_text vecDecode 400 bodyNumMessage
    (.obj [("message", .num 5)]) (.num 5) rfl rfl rfl (by decide)

/-! ## Claims about path-segment encoding -/

/-- The reserved set named by the specification, as a predicate on
characters: control characters (C0 and DEL), space, `#`, `%`, `/`, `?`. -/
def reservedChar (c : Char) : Bool :=
  c.toNat < 0x20 || c.toNat == 0x7F || c.toNat == 0x20 || c.toNat == 0x23 ||
    c.toNat == 0x25 || c.toNat == 0x2F || c.toNat == 0x3F

theorem reservedChar_eq_pathSegmentContains (c : Char) :
    reservedChar c = pathSegmentContains c.toNat := rfl

theorem string_mk_data (s : String) : String.mk s.data = s := by
  cases s
  rfl

theorem encode_ascii_unreserved (cs : List Char)
    (h : ∀ a ∈ cs, a.toNat < 0x80 ∧ reservedChar a = false) :
    (cs.flatMap utf8Bytes).flatMap encodeByteChars = cs := by
  induction cs with
  | nil => rfl
  | cons c rest ih =>
    obtain ⟨hlt, hres⟩ := h c (List.mem_cons_self c rest)
    have hb : utf8Bytes c = [c.toNat] := by
      simp [utf8Bytes, hlt]
    have hs : shouldEncode c.toNat = false := by
      rw [shouldEncode, ← reservedChar_eq_pathSegmentContains, hres]
      simp
      omega
    have he : encodeByteChars c.toNat = [c] := by
      rw [encodeByteChars, if_neg (by simp [hs]), Char.ofNat_toNat]
    rw [List.flatMap_cons, List.flatMap_append, hb]
    simp only [List.flatMap_cons, List.flatMap_nil, List.append_nil, he]
    rw [ih fun a ha => h a (List.mem_cons_of_mem c ha)]
    rfl

/-- C5 (amended): path-segment encoding percent-encodes the reserved set
(control characters, space, `#`, `%`, `/`, `?`) among ASCII characters —
every other ASCII character is left unchanged, so the encoding is the
identity on every ASCII string containing no reserved character, and
`encode("svc_test-user.1") = "svc_test-user.1"`,
`encode("a/b?c#d e") = "a%2Fb%3Fc%23d%20e"`; non-ASCII characters,
although outside the reserved set, are percent-encoded byte-by-byte as
well. -/
theorem c5_encode_path_reserved (s : String) (c : Char) :
    ((∀ a ∈ s.data, a.toNat < 0x80 ∧ reservedChar a = false) → encode_path s = s) ∧
    (c.toNat < 0x80 → reservedChar c = true →
      encode_path (String.mk [c]) =
        String.mk ['%', hexDigitChar (c.toNat / 16), hexDigitChar (c.toNat % 16)]) ∧
    encode_path "svc_test-user.1" = "svc_test-user.1" ∧
    encode_path "a/b?c#d e" = "a%2Fb%3Fc%23d%20e" := by
  refine ⟨?_, ?_, by decide, by decide⟩
  · intro h
    rw [encode_path, encode_ascii_unreserved s.data h, string_mk_data]
  · intro hlt hres
    have hb : utf8Bytes c = [c.toNat] := by
      simp [utf8Bytes, hlt]
    have hs : shouldEncode c.toNat = true := by
      rw [shouldEncode, ← reservedChar_eq_pathSegmentContains, hres]
      simp
    rw [encode_path]
    simp only [List.flatMap_cons, List.flatMap_nil, List.append_nil, hb]
    rw [encodeByteChars, if_pos hs]

/-- C5 witness: the identity case instantiated on a concrete ASCII string
with no reserved characters. -/
theorem c5_encode_path_reserved_witness :
    encode_path "md" = "md" ∧ encode_path (String.mk ['/']) = String.mk ['%', '2', 'F'] := by
  constructor
  · exact (c5_encode_path_reserved "md" 'x').1 (by decide)
  · exact (c5_encode_path_reserved "md" '/').2.1 (by decide) (by decide)

/-- C5 counterexample: `é` is not in the reserved set, yet
`encode_path` does not leave it unchanged — it percent-encodes its two
UTF-8 bytes. -/
theorem c5_non_ascii_counterexample :
    (∀ a ∈ ("é" : String).data, reservedChar a = false) ∧
    encode_path "é" = "%C3%A9" ∧
    encode_path "é" ≠ "é" := by
  refine ⟨by decide, by decide, by decide⟩

/-! ## Claims about the duckling-config merge -/

theorem merge_duckling_eq (current : Json) (o_rw o_rs : Option InstanceSize)
    (o_f : Option Nat) :
    merge_duckling current o_rw o_rs o_f =
      match resolve_rw current o_rw, resolve_rs current o_rs, resolve_flock current o_f with
      | .ok rw, .ok rs, .ok f => .ok (rw, rs, f)
      | .error e, _, _ => .error e
      | .ok _, .error e, _ => .error e
      | .ok _, .ok _, .error e => .error e := by
  rcases h1 : resolve_rw current o_rw with e1 | rw
  · simp only [merge_duckling, h1]
    rfl
  · rcases h2 : resolve_rs current o_rs with e2 | rs
    · simp only [merge_duckling, h1, h2]
      rfl
    · rcases h3 : resolve_flock current o_f with e3 | f
      · simp only [merge_duckling, h1, h2, h3]
        rfl
      · simp only [merge_duckling, h1, h2, h3]
        rfl

theorem merge_duckling_ok_iff {current : Json} {o_rw o_rs : Option InstanceSize}
    {o_f : Option Nat} {rw rs : String} {f : Nat} :
    merge_duckling current o_rw o_rs o_f = .ok (rw, rs, f) ↔
      resolve_rw current o_rw = .ok rw ∧ resolve_rs current o_rs = .ok rs ∧
        resolve_flock current o_f = .ok f := by
  rw [merge_duckling_eq]
  rcases h1 : resolve_rw current o_rw with e1 | rw' <;>
    rcases h2 : resolve_rs current o_rs with e2 | rs' <;>
    rcases h3 : resolve_flock current o_f with e3 | f' <;>
    simp

/-- The fetched current configuration of the specification's merge
example: `{read_write:{instance_size:"pulse"},
read_scaling:{instance_size:"standard", flock_size:4}}`. -/
def currentExample : Json :=
  .obj [("read_write", .obj [("instance_size", .str "pulse")]),
        ("read_scaling", .obj [("instance_size", .str "standard"), ("flock_size", .num 4)])]

/-- The write body the claim asserts: the merged configuration object with
no wrapper. -/
def claimedBody : Json :=
  .obj [("read_write", .obj [("instance_size", .str "jumbo")]),
        ("read_scaling", .obj [("instance_size", .str "standard"), ("flock_size", .num 4)])]

/-- C2 (amended): for each of the three overridable fields the value used
in the write is the caller's override when given and otherwise the
corresponding field of the fetched configuration; for the spec's example
(current `{rw:pulse, rs:standard, flock:4}`, override `rw_size=jumbo`
only), the merged configuration is
`{read_write:{instance_size:"jumbo"},
read_scaling:{instance_size:"standard", flock_size:4}}` and the body
submitted in the write call is that configuration wrapped under a
top-level `config` key. -/
theorem c2_merge_update (current : Json) (o_rw o_rs : Option InstanceSize)
    (o_f : Option Nat) (rw rs : String) (f : Nat) :
    (merge_duckling current o_rw o_rs o_f = .ok (rw, rs, f) →
      (∀ s, o_rw = some s → rw = s.as_api_str) ∧
      (o_rw = none → extract_str (current.index "read_write") "instance_size" = some rw) ∧
      (∀ s, o_rs = some s → rs = s.as_api_str) ∧
      (o_rs = none → extract_str (current.index "read_scaling") "instance_size" = some rs) ∧
      (∀ n, o_f = some n → f = n) ∧
      (o_f = none → ((current.index "read_scaling").index "flock_size").as_u64 = some f)) ∧
    merge_duckling currentExample (some .jumbo) none none = .ok ("jumbo", "standard", 4) ∧
    handle_duckling_set "u" (some .jumbo) none none (.ok currentExample) =
      ([ApiCall.getDucklingConfig "u",
        ApiCall.putDucklingConfig "u" (set_duckling_body "jumbo" "standard" 4)], .ok ()) := by
  refine ⟨?_, by rfl, by rfl⟩
  intro h
  obtain ⟨h1, h2, h3⟩ := merge_duckling_ok_iff.mp h
  refine ⟨?_, ?_, ?_, ?_, ?_, ?_⟩
  · intro s hs
    rw [hs] at h1
    cases h1
    rfl
  · intro hn
    rw [hn] at h1
    rcases he : extract_str (current.index "read_write") "instance_size" with _ | v
    · rw [resolve_rw, he] at h1
      exact absurd h1 (by simp)
    · rw [resolve_rw, he] at h1
      cases h1
      rfl
  · intro s hs
    rw [hs] at h2
    cases h2
    rfl
  · intro hn
    rw [hn] at h2
    rcases he : extract_str (current.index "read_scaling") "instance_size" with _ | v
    · rw [resolve_rs, he] at h2
      exact absurd h2 (by simp)
    · rw [resolve_rs, he] at h2
      cases h2
      rfl
  · intro n hn
    rw [hn] at h3
    cases h3
    rfl
  · intro hn
    rw [hn] at h3
    rcases he : ((current.index "read_scaling").index "flock_size").as_u64 with _ | v
    · rw [resolve_flock, he] at h3
      exact absurd h3 (by simp)
    · simp only [resolve_flock, he] at h3
      by_cases hv : v < 2 ^ 32
      · rw [if_pos hv] at h3
        cases h3
        rfl
      · rw [if_neg hv] at h3
        exact absurd h3 (by simp)

/-- C2 witness: the per-field characterization instantiated on the spec's
merge example. -/
theorem c2_merge_update_witness :
    "jumbo" = InstanceSize.jumbo.as_api_str ∧
    extract_str (currentExample.index "read_scaling") "instance_size" = some "standard" := by
  have h := (c2_merge_update currentExample (some .jumbo) none none
    "jumbo" "standard" 4).1 (by rfl)
  exact ⟨h.1 .jumbo rfl, h.2.2.2.1 rfl⟩

/-- C2 counterexample: the body actually submitted for the spec's merge
example is the merged configuration wrapped under a top-level `config`
key, not that configuration itself — the claim's "exactly
`{read_write:..., read_scaling:...}`" does not match the submitted body. -/
theorem c2_config_wrapper_counterexample :
    set_duckling_body "jumbo" "standard" 4 = Json.obj [("config", claimedBody)] ∧
    set_duckling_body "jumbo" "standard" 4 ≠ claimedBody := by
  constructor
  · rfl
  · intro h
    rw [set_duckling_body, claimedBody] at h
    injection h with h'
    injection h' with h1 h2
    injection h1 with h3 h4
    exact absurd h3 (by decide)

/-! ## Claims about duckling-set call sequencing -/

theorem merge_duckling_error_rw {current : Json} {o_rw o_rs : Option InstanceSize}
    {o_f : Option Nat} (hn : o_rw = none)
    (he : extract_str (current.index "read_write") "instance_size" = none) :
    merge_duckling current o_rw o_rs o_f =
      .error "current config missing read_write.instance_size" := by
  have h1 : resolve_rw current o_rw =
      .error "current config missing read_write.instance_size" := by
    rw [hn]
    simp only [resolve_rw, he]
  rw [merge_duckling_eq, h1]

theorem merge_duckling_error_rs {current : Json} {o_rw o_rs : Option InstanceSize}
    {o_f : Option Nat} {rw : String} (hok : resolve_rw current o_rw = .ok rw)
    (hn : o_rs = none)
    (he : extract_str (current.index "read_scaling") "instance_size" = none) :
    merge_duckling current o_rw o_rs o_f =
      .error "current config missing read_scaling.instance_size" := by
  have h2 : resolve_rs current o_rs =
      .error "current config missing read_scaling.instance_size" := by
    rw [hn]
    simp only [resolve_rs, he]
  rw [merge_duckling_eq, hok, h2]

theorem merge_duckling_error_flock {current : Json} {o_rw o_rs : Option InstanceSize}
    {o_f : Option Nat} {rw rs : String} (hok1 : resolve_rw current o_rw = .ok rw)
    (hok2 : resolve_rs current o_rs = .ok rs) (hn : o_f = none)
    (he : ((current.index "read_scaling").index "flock_size").as_u64 = none) :
    merge_duckling current o_rw o_rs o_f =
      .error "current config missing read_scaling.flock_size" := by
  have h3 : resolve_flock current o_f =
      .error "current config missing read_scaling.flock_size" := by
    rw [hn]
    simp only [resolve_flock, he]
  rw [merge_duckling_eq, hok1, hok2, h3]

/-- C6: a duckling-config set submits its write only when at least one
override was supplied (a command with none is rejected before any network
call), the fetch of the current configuration succeeded, and the merge
resolved every field; a failed fetch yields only the fetch call and its
error; a field neither overridden nor present in the fetched configuration
yields only the fetch call and an error naming that field. -/
theorem c6_duckling_set_gating (username : String) (o_rw o_rs : Option InstanceSize)
    (o_f : Option Nat) (fetch : Except String Json) :
    (o_rw = none → o_rs = none → o_f = none →
      duckling_set_run username o_rw o_rs o_f fetch =
        ([], .error "at least one override is required")) ∧
    ((∃ b, ApiCall.putDucklingConfig username b ∈
        (duckling_set_run username o_rw o_rs o_f fetch).1) ↔
      overridesGroupSatisfied o_rw o_rs o_f = true ∧
        ∃ current rw rs f, fetch = .ok current ∧
          merge_duckling current o_rw o_rs o_f = .ok (rw, rs, f)) ∧
    (∀ e, fetch = .error e → overridesGroupSatisfied o_rw o_rs o_f = true →
      duckling_set_run username o_rw o_rs o_f fetch =
        ([ApiCall.getDucklingConfig username], .error e)) ∧
    (∀ current, fetch = .ok current → overridesGroupSatisfied o_rw o_rs o_f = true →
      ∀ e, merge_duckling current o_rw o_rs o_f = .error e →
        duckling_set_run username o_rw o_rs o_f fetch =
          ([ApiCall.getDucklingConfig username], .error e)) := by
  refine ⟨?_, ?_, ?_, ?_⟩
  · intro h1 h2 h3
    rw [duckling_set_run, if_neg]
    rw [h1, h2, h3]
    simp [overridesGroupSatisfied]
  · by_cases hg : overridesGroupSatisfied o_rw o_rs o_f = true
    · rw [duckling_set_run, if_pos hg]
      rcases hf : fetch with e | current
      · simp [handle_duckling_set, hg]
      · rcases hm : merge_duckling current o_rw o_rs o_f with e | ⟨rw, rs, f⟩
        · simp [handle_duckling_set, hm, hg]
        · simp only [handle_duckling_set, hm]
          constructor
          · intro _
            exact ⟨hg, current, rw, rs, f, rfl, hm⟩
          · intro _
            exact ⟨set_duckling_body rw rs f, by simp⟩
    · rw [duckling_set_run, if_neg hg]
      simp [hg]
  · intro e hf hg
    rw [duckling_set_run, if_pos hg, hf]
    rfl
  · intro current hf hg e hm
    rw [duckling_set_run, if_pos hg, hf]
    simp only [handle_duckling_set, hm]

/-- C6 witness: a failed fetch suppresses the write; a fetched
configuration missing `read_write.instance_size` fails naming the field
with no write submitted. -/
theorem c6_duckling_set_gating_witness :
    duckling_set_run "u" (some .jumbo) none none (.error "boom") =
      ([ApiCall.getDucklingConfig "u"], .error "boom") ∧
    duckling_set_run "u" none (some .standard) none (.ok (.obj [])) =
      ([ApiCall.getDucklingConfig "u"],
        .error "current config missing read_write.instance_size") := by
  constructor
  · exact (c6_duckling_set_gating "u" (some .jumbo) none none (.error "boom")).2.2.1
      "boom" rfl rfl
  · exact (c6_duckling_set_gating "u" none (some .standard) none (.ok (.obj []))).2.2.2
      (.obj []) rfl rfl "current config missing read_write.instance_size"
      (merge_duckling_error_rw rfl rfl)

/-! ## Claims about the confirmation gate -/

/-- The specification's gate condition: the skip flag is set, or stdin is
not an interactive terminal, or the trimmed lowercased answer is `y` or
`yes`. -/
def confirmPasses (yes stdinIsTerminal : Bool) (inputLine : String) : Prop :=
  yes = true ∨ stdinIsTerminal = false ∨
    lowercase (rustTrim inputLine) = "y" ∨ lowercase (rustTrim inputLine) = "yes"

theorem confirm_ok_iff (yes t : Bool) (input : String) :
    confirm yes t input = .ok () ↔ confirmPasses yes t input := by
  cases yes <;> cases t <;>
    simp only [confirm, confirmPasses, Bool.false_or, Bool.true_or, Bool.not_true,
      Bool.not_false, if_true, if_false] <;>
    by_cases h1 : lowercase (rustTrim input) = "y" <;>
    by_cases h2 : lowercase (rustTrim input) = "yes" <;>
    simp [h1, h2]

theorem confirm_error_of_not_passes {yes t : Bool} {input : String}
    (h : ¬ confirmPasses yes t input) : confirm yes t input = .error "aborted" := by
  have hy : yes = false := by
    rcases yes
    · rfl
    · exact absurd (Or.inl rfl) h
  have ht : t = true := by
    rcases t
    · exact absurd (Or.inr (Or.inl rfl)) h
    · rfl
  subst hy
  subst ht
  have ha : ¬(lowercase (rustTrim input) = "y" ∨ lowercase (rustTrim input) = "yes") :=
    fun hc => h (Or.inr (Or.inr hc))
  rw [confirm, if_neg (by decide), if_neg (by simpa using ha)]

/-- C7: for delete-user and delete-token the API call is performed exactly
when the confirmation gate passes — the skip flag is set, or stdin is not
an interactive terminal, or the trimmed lowercased answer is `y` or `yes`;
any other answer aborts with an error and no API call is made. -/
theorem c7_confirmation_gate (username tokenId : String) (yes isTerm : Bool)
    (input : String) :
    (confirmPasses yes isTerm input →
      handle_delete_user username yes isTerm input =
        ([ApiCall.deleteUser username], .ok ()) ∧
      handle_delete_token username tokenId yes isTerm input =
        ([ApiCall.deleteToken username tokenId], .ok ())) ∧
    (¬ confirmPasses yes isTerm input →
      handle_delete_user username yes isTerm input = ([], .error "aborted") ∧
      handle_delete_token username tokenId yes isTerm input = ([], .error "aborted")) ∧
    (ApiCall.deleteUser username ∈ (handle_delete_user username yes isTerm input).1 ↔
      confirmPasses yes isTerm input) ∧
    (ApiCall.deleteToken username tokenId ∈
        (handle_delete_token username tokenId yes isTerm input).1 ↔
      confirmPasses yes isTerm input) := by
  have hok : confirmPasses yes isTerm input → confirm yes isTerm input = .ok () :=
    (confirm_ok_iff yes isTerm input).mpr
  refine ⟨?_, ?_, ?_, ?_⟩
  · intro h
    rw [handle_delete_user, handle_delete_token, hok h]
    exact ⟨rfl, rfl⟩
  · intro h
    rw [handle_delete_user, handle_delete_token, confirm_error_of_not_passes h]
    exact ⟨rfl, rfl⟩
  · by_cases h : confirmPasses yes isTerm input
    · rw [handle_delete_user, hok h]
      simp [h]
    · rw [handle_delete_user, confirm_error_of_not_passes h]
      simp [h]
  · by_cases h : confirmPasses yes isTerm input
    · rw [handle_delete_token, hok h]
      simp [h]
    · rw [handle_delete_token, confirm_error_of_not_passes h]
      simp [h]

/-- C7 witness: an interactive `YES` answer performs the delete; an
interactive `n` answer aborts with no call. -/
theorem c7_confirmation_gate_witness :
    handle_delete_user "svc_test" false true " YES \n" =
      ([ApiCall.deleteUser "svc_test"], .ok ()) ∧
    handle_delete_token "svc_test" "t123" false true "n" = ([], .error "aborted") := by
  constructor
  · exact ((c7_confirmation_gate "svc_test" "t" false true " YES \n").1
      (Or.inr (Or.inr (Or.inr (by decide))))).1
  · exact ((c7_confirmation_gate "svc_test" "t123" false true "n").2.1
      (by
        intro h
        rcases h with h | h | h | h <;> revert h <;> decide)).2

/-! ## Claims about table rendering -/

theorem le_foldr_max (x : Nat) (l : List Nat) (h : x ∈ l) : x ≤ l.foldr max 0 := by
  induction l with
  | nil => cases h
  | cons a t ih =>
    rw [List.foldr_cons]
    rcases List.mem_cons.mp h with rfl | hm
    · exact le_max_left _ _
    · exact le_trans (ih hm) (le_max_right _ _)

theorem foldr_max_cases (l : List Nat) : l.foldr max 0 = 0 ∨ l.foldr max 0 ∈ l := by
  induction l with
  | nil => exact Or.inl rfl
  | cons a t ih =>
    rw [List.foldr_cons]
    rcases max_choice a (t.foldr max 0) with h | h
    · right
      rw [h]
      exact List.mem_cons_self a t
    · rcases ih with h0 | hm
      · left
        rw [h, h0]
      · right
        rw [h]
        exact List.mem_cons_of_mem a hm

theorem tableWidths_getElem (headers : List String) (rows : List (List String))
    {i : Nat} (h : i < headers.length) :
    (tableWidths headers rows)[i]? =
      some (max (cellWidth headers i) ((rows.map fun r => cellWidth r i).foldr max 0)) := by
  rw [tableWidths, List.getElem?_map, List.getElem?_range h]
  rfl

/-- C8: the table renderer computes each column's width as the max of the
header's width and every cell's width in that column (the width is an
upper bound of all of them and is attained by one of them), prints the
header row followed by one line per data row using those widths with two
spaces after each padded non-final column, prints nothing at all for an
empty rows list, and computes widths 4 and 5 for the spec's example, whose
full rendering is fixed. -/
theorem c8_print_table (headers : List String) (rows : List (List String)) :
    headers ≠ [] →
    print_table headers [] = "" ∧
    (rows ≠ [] →
      print_table headers rows =
        renderRow (tableWidths headers rows) (headers.length - 1) headers ++
          String.join (rows.map (renderRow (tableWidths headers rows)
            (headers.length - 1)))) ∧
    (∀ i, i < headers.length →
      ∃ w, (tableWidths headers rows)[i]? = some w ∧
        cellWidth headers i ≤ w ∧
        (∀ r ∈ rows, cellWidth r i ≤ w) ∧
        (w = cellWidth headers i ∨ ∃ r ∈ rows, w = cellWidth r i)) ∧
    tableWidths ["ID", "NAME"] [["1", "alice"], ["1000", "b"]] = [4, 5] ∧
    print_table ["ID", "NAME"] [["1", "alice"], ["1000", "b"]] =
      "ID    NAME\n1     alice\n1000  b\n" := by
  intro _
  refine ⟨rfl, ?_, ?_, by decide, by decide⟩
  · intro hr
    rw [print_table, if_neg (by simpa [List.isEmpty_iff] using hr)]
  · intro i hi
    refine ⟨max (cellWidth headers i) ((rows.map fun r => cellWidth r i).foldr max 0),
      tableWidths_getElem headers rows hi, le_max_left _ _, ?_, ?_⟩
    · intro r hr
      exact le_trans
        (le_foldr_max _ _ (List.mem_map_of_mem (fun r => cellWidth r i) hr))
        (le_max_right _ _)
    · rcases foldr_max_cases (rows.map fun r => cellWidth r i) with h0 | hm
      · exact Or.inl (by rw [h0, Nat.max_zero])
      · rcases max_choice (cellWidth headers i)
          ((rows.map fun r => cellWidth r i).foldr max 0) with h | h
        · exact Or.inl h
        · obtain ⟨r, hr, he⟩ := List.mem_map.mp hm
          exact Or.inr ⟨r, hr, by rw [h, ← he]⟩

/-- C8 witness: the width computation and rendering of the spec's
example. -/
theorem c8_print_table_witness :
    tableWidths ["ID", "NAME"] [["1", "alice"], ["1000", "b"]] = [4, 5] :=
  ((c8_print_table ["ID", "NAME"] [["1", "alice"], ["1000", "b"]]) (by decide)).2.2.2.1

/-! ## Claims about per-field text rendering -/

/-- C9: in text-mode list rendering a missing or null field renders as the
literal `-`, while the token-expiry column renders an absent, null or
empty-string `expire_at` as the literal `never` (and the expiry column is
the fourth cell of a token row). -/
theorem c9_missing_field_rendering (v t : Json) (key : String) :
    (v.get key = none → display_field v key = "-") ∧
    (v.get key = some .null → display_field v key = "-") ∧
    (t.get "expire_at" = none → token_expiry t = "never") ∧
    (t.get "expire_at" = some .null → token_expiry t = "never") ∧
    (t.get "expire_at" = some (.str "") → token_expiry t = "never") ∧
    (token_row t)[3]? = some (token_expiry t) := by
  refine ⟨?_, ?_, ?_, ?_, ?_, rfl⟩
  · intro h
    rw [display_field, Json.index, h]
    rfl
  · intro h
    rw [display_field, Json.index, h]
    rfl
  · intro h
    rw [token_expiry, Json.index, h]
    rfl
  · intro h
    rw [token_expiry, Json.index, h]
    rfl
  · intro h
    rw [token_expiry, Json.index, h]
    rfl

/-- C9 witness: a token object with a null `expire_at` and no `name`
renders `never` in the expiry column and `-` for the missing field. -/
theorem c9_missing_field_rendering_witness :
    display_field (Json.obj [("id", Json.str "t1")]) "name" = "-" ∧
    token_expiry (Json.obj [("id", Json.str "t1"), ("expire_at", Json.null)]) = "never" := by
  constructor
  · exact (c9_missing_field_rendering (Json.obj [("id", Json.str "t1")])
      Json.null "name").1 rfl
  · exact (c9_missing_field_rendering Json.null
      (Json.obj [("id", Json.str "t1"), ("expire_at", Json.null)]) "name").2.2.2.1 rfl

end DkdcMd
